import Mathlib

/-!
Verification development for the outbound-call-support repository.

This file shallowly embeds the asynchronous trace-delivery subsystem
(`src/agent/src/utils/tracing.py`), the structured-reply decoder and the
conversation event router (`src/agent/src/utils/session.py`), together with
the message-type constants of `src/agent/src/utils/common.py`, and proves
the stated properties about those embeddings.

Modelling conventions:
* Python JSON-like values are modelled by the inductive `Jv`; Python dicts
  by association lists with unique keys (insertion replaces in place, as
  Python dict assignment does).
* Python strings are Lean `String`s; Python `len`/slicing act on code
  points, modelled through `String.data` (a `List Char` of code points).
* The single-threaded cooperative concurrency of asyncio is modelled by
  explicit state passing; a coroutine step that suspends forever from the
  caller's point of view (e.g. `await queue.put` on a full queue with no
  consumer slot free) is reported as an explicit `blocked` outcome.
* Fallible operations return `Option`; an uncaught Python exception inside
  a generator is modelled as `none` at the run level.
-/

/-- JSON-like Python value, as produced by `pydantic_core.from_json`:
strings, integers, booleans, `None`, objects (dicts) and arrays.
JSON floats are not modelled (no payload in this repository carries one);
the number parser rejects fraction/exponent forms. -/
inductive Jv where
  | str (s : String)
  | int (n : Int)
  | bool (b : Bool)
  | null
  | obj (fields : List (String × Jv))
  | arr (items : List Jv)

/-- Python dict lookup `d.get(k)` on an association list. -/
def dictLookup (d : List (String × Jv)) (k : String) : Option Jv :=
  match d with
  | [] => none
  | (k', v) :: rest => if k' = k then some v else dictLookup rest k

/-- Python dict assignment `d[k] = v`: replace in place if the key exists
(keeping its position, as CPython dicts do), else append. -/
def dictInsert (d : List (String × Jv)) (k : String) (v : Jv) : List (String × Jv) :=
  match d with
  | [] => [(k, v)]
  | (k', v') :: rest =>
    if k' = k then (k', v) :: rest else (k', v') :: dictInsert rest k v

/-- Python truthiness of a `Jv` (`if x:`). -/
def pyTruthy (v : Jv) : Bool :=
  match v with
  | .str s => !(s = "")
  | .int n => !(n = 0)
  | .bool b => b
  | .null => false
  | .obj fields => !fields.isEmpty
  | .arr items => !items.isEmpty

/-- Whether a `Jv` is a Python `str`. -/
def isStrJv (v : Jv) : Bool :=
  match v with
  | .str _ => true
  | _ => false

/-- Message type constants from `src/agent/src/utils/common.py`. -/
def MESSAGE_TYPE_USER : String := "user"

def MESSAGE_TYPE_AGENT : String := "agent"

def MESSAGE_TYPE_REASONING_TOOL_CALL : String := "reasoning:tool_call"

def MESSAGE_TYPE_REASONING_USER_RESPONSE : String := "reasoning:user_response"

def MESSAGE_TYPE_TOOL : String := "tool"

def ROLE_USER : String := "user"

def ROLE_ASSISTANT : String := "assistant"

/-- The `TraceItem` dataclass of `tracing.py`. `conversation_id` is typed
`str` in the dataclass but Python enforces nothing, and the router passes
`session.userdata.conversation_id : str | None`, so it is an `Option`. -/
structure TraceItem where
  occurred_at : String
  conversation_id : Option String
  message_type : String
  message : List (String × Jv)
  should_redact : Bool
  is_unit_test : Bool
  trace_id : Option Int

/-- The module-level globals of `tracing.py`: `trace_queue` (None before
`init_trace_system`, afterwards a bounded FIFO whose contents we carry
explicitly, front = earliest), `trace_session` (whether an
`aiohttp.ClientSession` currently exists) and `trace_consumers` (names of
the spawned consumer tasks). -/
structure TraceState where
  trace_queue : Option (List TraceItem)
  trace_session : Bool
  trace_consumers : List String

def N_WRITE_TRACE_CONSUMERS : Nat := 5

/-- `asyncio.Queue(maxsize=100)` capacity used by `init_trace_system`. -/
def TRACE_QUEUE_MAXSIZE : Nat := 100

/-- Observable outcome of a `write_trace` call. `blocked` models
`await trace_queue.put(item)` suspending because the queue is full:
`asyncio.Queue.put` waits for a free slot and never raises
`asyncio.QueueFull` (only `put_nowait` does), so the
`except asyncio.QueueFull` drop-and-log branch of the source is
unreachable. -/
inductive WriteOutcome where
  | uninitialized
  | enqueued
  | blocked
deriving DecidableEq, Repr

/-- `write_trace` of `tracing.py`: if the queue global is `None`, log an
error and return; otherwise build the `TraceItem` and `await
trace_queue.put(item)`. -/
def write_trace (s : TraceState) (occurred_at : String)
    (conversation_id : Option String) (message_type : String)
    (message : List (String × Jv)) (should_redact : Bool)
    (is_unit_test : Bool) (trace_id : Option Int) :
    WriteOutcome × TraceState :=
  match s.trace_queue with
  | none => (.uninitialized, s)
  | some q =>
    let item : TraceItem :=
      ⟨occurred_at, conversation_id, message_type, message,
        should_redact, is_unit_test, trace_id⟩
    if q.length < TRACE_QUEUE_MAXSIZE then
      (.enqueued, ⟨some (q ++ [item]), s.trace_session, s.trace_consumers⟩)
    else
      (.blocked, s)

/-- `init_trace_system`: fresh bounded queue, shared client session, and
`N_WRITE_TRACE_CONSUMERS` named consumer tasks. -/
def init_trace_system (_s : TraceState) : TraceState :=
  ⟨some [], true,
    (List.range N_WRITE_TRACE_CONSUMERS).map
      (fun i => "trace_consumer_" ++ toString i)⟩

/-- Record of what a `shutdown_trace_system` call did, together with the
resulting global state. Every potentially failing step of the source is
guarded (`gather(..., return_exceptions=True)`, the queue join wrapped in
`try/except asyncio.TimeoutError`, `if trace_queue:` / `if trace_session:`
checks), so the call has no raising path to model. -/
structure ShutdownRun where
  cancelledTasks : List String
  gatherAwaited : Bool
  queueJoinAwaited : Bool
  sessionClosed : Bool
  result : TraceState

/-- `shutdown_trace_system`: cancel every consumer task, await them,
join the queue with a 5s timeout, close the session, then reset all three
globals. -/
def shutdown_trace_system (s : TraceState) : ShutdownRun :=
  ⟨s.trace_consumers,
    !(s.trace_consumers = ([] : List String)),
    s.trace_queue.isSome,
    s.trace_session,
    ⟨none, false, []⟩⟩

/-- Result of one consumer-loop body on a dequeued item: the item as
delivered (locally logged), or `none` when the console-mode branch skips
it; `textWrites` counts assignments to `message["text"]`. -/
structure ProcessResult where
  delivered : Option TraceItem
  textWrites : Nat

/-- Per-item body of `trace_consumer` in `tracing.py`: skip non-test items
in console mode; if `should_redact` and the type is a user/agent
utterance, execute `content["text"] = content["text"]` (the redaction call
is commented out, so the step writes the looked-up value back unchanged; a
missing `"text"` key raises `KeyError`, caught by the inner
`except Exception`); then deliver (log) the item. -/
def consumerProcessItem (consoleMode : Bool) (item : TraceItem) :
    ProcessResult :=
  if !item.is_unit_test && consoleMode then
    ⟨none, 0⟩
  else
    if item.should_redact &&
        (item.message_type = MESSAGE_TYPE_USER ||
         item.message_type = MESSAGE_TYPE_AGENT) then
      match dictLookup item.message "text" with
      | some t =>
        ⟨some ⟨item.occurred_at, item.conversation_id, item.message_type,
            dictInsert item.message "text" t, item.should_redact,
            item.is_unit_test, item.trace_id⟩, 1⟩
      | none => ⟨some item, 0⟩
    else
      ⟨some item, 0⟩

/-- One observed iteration of the `trace_consumer` loop: an item was
dequeued and processed without exception, an item's processing raised a
non-cancellation exception (caught by the loop's `except Exception`), or
the task received `asyncio.CancelledError`. -/
inductive WorkerEvent where
  | itemOk (it : TraceItem)
  | itemError (it : TraceItem)
  | cancel

def isCancel (e : WorkerEvent) : Bool :=
  match e with
  | .cancel => true
  | _ => false

/-- The `while True` loop of `trace_consumer` over a finite schedule of
iteration events: returns how many items were attempted and whether the
loop exited (it only does so via the `except asyncio.CancelledError:
break` arm; `except Exception` logs and continues). -/
def trace_consumer_run (events : List WorkerEvent) : Nat × Bool :=
  match events with
  | [] => (0, false)
  | .cancel :: _ => (0, true)
  | .itemOk _ :: rest =>
    ((trace_consumer_run rest).1 + 1, (trace_consumer_run rest).2)
  | .itemError _ :: rest =>
    ((trace_consumer_run rest).1 + 1, (trace_consumer_run rest).2)

/-! ### Partial JSON parsing

Model of `pydantic_core.from_json(text, allow_partial="trailing-strings")`
(the jiter parser) as used by `process_structured_output` and
`on_conversation_item_added` in `session.py`.  Partial mode tolerates
input that is truncated at the end: every complete member parsed so far is
kept, unclosed containers are closed, an incomplete trailing *string* is
included as-is ("trailing-strings"), while an incomplete trailing key,
literal or number is dropped.  Structurally invalid input (not a mere
truncation) is an error, surfaced as `none` / Python `ValueError`. -/

def isWsChar (c : Char) : Bool :=
  c = ' ' || c = '\n' || c = '\r' || c = '\t'

/-- Skip JSON whitespace. -/
def skipWs (cs : List Char) : List Char :=
  match cs with
  | [] => []
  | c :: rest => if isWsChar c then skipWs rest else c :: rest

/-- Result of scanning a JSON string body (after the opening quote):
closed by `"`, truncated at end of input (content so far is salvaged in
trailing-strings mode; an incomplete trailing escape is dropped), or
malformed (bad escape). -/
inductive StrRes where
  | closed (content : List Char) (rest : List Char)
  | truncated (content : List Char)
  | bad

def hexVal (c : Char) : Option Nat :=
  if '0' ≤ c ∧ c ≤ '9' then some (c.toNat - 48)
  else if 'a' ≤ c ∧ c ≤ 'f' then some (c.toNat - 87)
  else if 'A' ≤ c ∧ c ≤ 'F' then some (c.toNat - 55)
  else none

/-- Scan a JSON string body, decoding escapes. -/
def parseStringBody (acc : List Char) (cs : List Char) : StrRes :=
  match cs with
  | [] => .truncated acc
  | c :: rest =>
    if c = '"' then .closed acc rest
    else if c = '\\' then
      match rest with
      | [] => .truncated acc
      | e :: rest2 =>
        if e = '"' then parseStringBody (acc ++ ['"']) rest2
        else if e = '\\' then parseStringBody (acc ++ ['\\']) rest2
        else if e = '/' then parseStringBody (acc ++ ['/']) rest2
        else if e = 'n' then parseStringBody (acc ++ ['\n']) rest2
        else if e = 't' then parseStringBody (acc ++ ['\t']) rest2
        else if e = 'r' then parseStringBody (acc ++ ['\r']) rest2
        else if e = 'b' then parseStringBody (acc ++ ['\x08']) rest2
        else if e = 'f' then parseStringBody (acc ++ ['\x0C']) rest2
        else if e = 'u' then
          match rest2 with
          | h1 :: h2 :: h3 :: h4 :: rest3 =>
            match hexVal h1, hexVal h2, hexVal h3, hexVal h4 with
            | some a, some b, some c2, some d =>
              parseStringBody
                (acc ++ [Char.ofNat (((a * 16 + b) * 16 + c2) * 16 + d)])
                rest3
            | _, _, _, _ => .bad
          | _ => .truncated acc
        else .bad
    else parseStringBody (acc ++ [c]) rest

/-- Result of a partial-tolerant parse step: a complete value with the
remaining input, a truncation with an optional salvaged partial value, or
a hard error. -/
inductive PRes (α : Type) where
  | done (v : α) (rest : List Char)
  | trunc (v : Option α)
  | err

/-- Match a literal tail (`rue`, `alse`, `ull`); truncation at end of
input salvages nothing (an incomplete literal is dropped). -/
def parseLit (lit : List Char) (v : Jv) (cs : List Char) : PRes Jv :=
  match lit, cs with
  | [], rest => .done v rest
  | _ :: _, [] => .trunc none
  | l :: ls, c :: rest => if c = l then parseLit ls v rest else .err

/-- Consume a run of decimal digits. -/
def parseDigits (acc : List Char) (cs : List Char) :
    List Char × List Char :=
  match cs with
  | [] => (acc, [])
  | c :: rest =>
    if c.isDigit then parseDigits (acc ++ [c]) rest else (acc, cs)

def digitsToNat (ds : List Char) : Nat :=
  ds.foldl (fun n c => n * 10 + (c.toNat - 48)) 0

/-- Parse a JSON integer.  A number running into the end of input is
ambiguous (more digits could follow) and is dropped in partial mode;
fraction/exponent forms (floats) are not modelled and rejected. -/
def parseNumber (cs : List Char) : PRes Jv :=
  let signed :=
    match cs with
    | '-' :: rest => (true, rest)
    | _ => (false, cs)
  match parseDigits [] signed.2 with
  | ([], []) => .trunc none
  | ([], _ :: _) => .err
  | (ds, rest) =>
    match rest with
    | [] => .trunc none
    | c :: _ =>
      if c = '.' || c = 'e' || c = 'E' then .err
      else
        let n : Int := Int.ofNat (digitsToNat ds)
        .done (Jv.int (if signed.1 then -n else n)) rest

mutual

/-- Parse one JSON value (input already whitespace-skipped). -/
def parseValue (fuel : Nat) (cs : List Char) : PRes Jv :=
  match fuel with
  | 0 => .err
  | fuel + 1 =>
    match cs with
    | [] => .trunc none
    | c :: rest =>
      if c = '"' then
        match parseStringBody [] rest with
        | .closed content rest2 => .done (.str ⟨content⟩) rest2
        | .truncated content => .trunc (some (.str ⟨content⟩))
        | .bad => .err
      else if c = '\x7b' then
        match parseObjMembers fuel [] (skipWs rest) with
        | .done fields rest2 => .done (.obj fields) rest2
        | .trunc (some fields) => .trunc (some (.obj fields))
        | .trunc none => .trunc none
        | .err => .err
      else if c = '[' then
        match parseArrItems fuel [] (skipWs rest) with
        | .done items rest2 => .done (.arr items) rest2
        | .trunc (some items) => .trunc (some (.arr items))
        | .trunc none => .trunc none
        | .err => .err
      else if c = 't' then parseLit ['r', 'u', 'e'] (.bool true) rest
      else if c = 'f' then parseLit ['a', 'l', 's', 'e'] (.bool false) rest
      else if c = 'n' then parseLit ['u', 'l', 'l'] .null rest
      else if c = '-' || c.isDigit then parseNumber cs
      else .err

/-- Parse object members after `\x7b` (input whitespace-skipped).
On truncation, complete members are kept and the object closed; a
truncated value is kept only if its own parse salvages something (which
for scalars is exactly the trailing-string case). -/
def parseObjMembers (fuel : Nat) (acc : List (String × Jv))
    (cs : List Char) : PRes (List (String × Jv)) :=
  match fuel with
  | 0 => .err
  | fuel + 1 =>
    match cs with
    | [] => .trunc (some acc)
    | c :: rest =>
      if c = '\x7d' then .done acc rest
      else if c = '"' then
        match parseStringBody [] rest with
        | .closed key rest2 =>
          match skipWs rest2 with
          | [] => .trunc (some acc)
          | ':' :: rest3 =>
            match parseValue fuel (skipWs rest3) with
            | .done v rest4 =>
              let acc2 := dictInsert acc ⟨key⟩ v
              match skipWs rest4 with
              | [] => .trunc (some acc2)
              | ',' :: rest5 => parseObjMembers fuel acc2 (skipWs rest5)
              | '\x7d' :: rest5 => .done acc2 rest5
              | _ => .err
            | .trunc (some v) => .trunc (some (dictInsert acc ⟨key⟩ v))
            | .trunc none => .trunc (some acc)
            | .err => .err
          | _ => .err
        | .truncated _ => .trunc (some acc)
        | .bad => .err
      else .err

/-- Parse array items after `[` (input whitespace-skipped). -/
def parseArrItems (fuel : Nat) (acc : List Jv) (cs : List Char) :
    PRes (List Jv) :=
  match fuel with
  | 0 => .err
  | fuel + 1 =>
    match cs with
    | [] => .trunc (some acc)
    | c :: rest =>
      if c = ']' then .done acc rest
      else
        match parseValue fuel cs with
        | .done v rest2 =>
          match skipWs rest2 with
          | [] => .trunc (some (acc ++ [v]))
          | ',' :: rest3 => parseArrItems fuel (acc ++ [v]) (skipWs rest3)
          | ']' :: rest3 => .done (acc ++ [v]) rest3
          | _ => .err
        | .trunc (some v) => .trunc (some (acc ++ [v]))
        | .trunc none => .trunc (some acc)
        | .err => .err

end

/-- `pydantic_core.from_json(s, allow_partial="trailing-strings")`:
parse the whole input as one JSON value under partial tolerance.  The
fuel `2 * length + 8` strictly dominates the number of recursive calls
(each consumes at least one input character before recursing). -/
def from_json_trailing_strings (s : String) : Option Jv :=
  match parseValue (2 * s.data.length + 8) (skipWs s.data) with
  | .done v rest => if skipWs rest = [] then some v else none
  | .trunc ov => ov
  | .err => none

/-! ### Structured Reply Decoder (`process_structured_output`) -/

/-- Local state of the `process_structured_output` generator. -/
structure DecoderState where
  last_response : String
  acc_text : String
deriving DecidableEq, Repr

/-- Python `len(s)` on a `str`: number of code points. -/
def pyLen (s : String) : Nat := s.data.length

/-- Python slice `s[n:]` on a `str`: drop the first `n` code points. -/
def pySliceFrom (s : String) (n : Nat) : String := ⟨s.data.drop n⟩

/-- One `async for` iteration of `process_structured_output`: append the
chunk to the accumulator, try the partial-tolerant parse (`ValueError`
means skip), skip when `resp.get("response")` is falsy, otherwise emit
`resp["response"][len(last_response):]` if non-empty and advance
`last_response`.  `none` models an exception the generator does not
catch: `.get` on a non-dict parse result (`AttributeError`) or slicing a
truthy non-string `response` (`TypeError`). -/
def decodeStep (st : DecoderState) (chunk : String) :
    Option (DecoderState × List String) :=
  let acc := st.acc_text ++ chunk
  match from_json_trailing_strings acc with
  | none => some (⟨st.last_response, acc⟩, [])
  | some v =>
    match v with
    | .obj fields =>
      match dictLookup fields "response" with
      | none => some (⟨st.last_response, acc⟩, [])
      | some w =>
        if pyTruthy w then
          match w with
          | .str r =>
            let new_delta := pySliceFrom r (pyLen st.last_response)
            some (⟨r, acc⟩, if new_delta = "" then [] else [new_delta])
          | _ => none
        else some (⟨st.last_response, acc⟩, [])
    | _ => none

/-- Drive the decoder over a list of stream chunks, collecting emissions;
the final state is `none` when an uncaught exception ended the run. -/
def runDecoder (st : DecoderState) (chunks : List String) :
    List String × Option DecoderState :=
  match chunks with
  | [] => ([], some st)
  | c :: rest =>
    match decodeStep st c with
    | none => ([], none)
    | some (st2, out) =>
      let r := runDecoder st2 rest
      (out ++ r.1, r.2)

/-- `process_structured_output` applied to a whole chunk stream, from the
generator's initial state (`last_response = ""`, `acc_text = ""`). -/
def process_structured_output (chunks : List String) :
    List String × Option DecoderState :=
  runDecoder ⟨"", ""⟩ chunks

/-- The `response` string a decoder iteration acts on for accumulated
text `t`: present exactly when the partial parse succeeds with a dict
whose `response` entry is a truthy (non-empty) string. -/
def respOf? (t : String) : Option String :=
  match from_json_trailing_strings t with
  | some (.obj fields) =>
    match dictLookup fields "response" with
    | some (.str r) => if pyTruthy (.str r) then some r else none
    | _ => none
  | _ => none

/-- Accumulated text `t` cannot make the generator raise: any successful
parse is a dict, and a truthy `response` entry is a string. -/
def goodText (t : String) : Bool :=
  match from_json_trailing_strings t with
  | none => true
  | some (.obj fields) =>
    match dictLookup fields "response" with
    | none => true
    | some w => !pyTruthy w || isStrJv w
  | some _ => false

/-- The successive values of the decoder's accumulator over a chunk
stream, starting from accumulator `acc0`. -/
def accTexts (acc0 : String) (chunks : List String) : List String :=
  match chunks with
  | [] => []
  | c :: rest => (acc0 ++ c) :: accTexts (acc0 ++ c) rest

/-- The suffix deltas the decoder emits for a sequence of response
values, given the previously emitted full value `prev`: each step emits
`r[len(prev):]` when non-empty and advances `prev` to `r`. -/
def strictDeltas (prev : String) (rs : List String) : List String :=
  match rs with
  | [] => []
  | r :: rest =>
    let d := pySliceFrom r (pyLen prev)
    if d = "" then strictDeltas r rest else d :: strictDeltas r rest

/-- Each response value extends the previous one (code-point prefix). -/
def chainOk (prev : String) (rs : List String) : Bool :=
  match rs with
  | [] => true
  | r :: rest => prev.data.isPrefixOf r.data && chainOk r rest

/-- Concatenation of a list of strings. -/
def strConcat (ss : List String) : String :=
  match ss with
  | [] => ""
  | s :: rest => s ++ strConcat rest

/-! ### Session model (`session.py`) -/

/-- The `DeviceInfo` dataclass. -/
structure DeviceInfo where
  device_id : Option String
  device_firmware_version : Option String

/-- The `MySessionInfo` dataclass. -/
structure MySessionInfo where
  conversation_id : Option String
  tenant_id : Option String
  user_id : Option String
  country : Option String
  app_version : Option String
  all_devices : List (String × DeviceInfo)
  consent_to_record : Option Bool
  device_id : Option String
  figurine_name : Option String
  log_access_count : Int
  mock_log_guidance : Option (List (String × Jv))

/-- Python truthiness of `bool | None` (`if session.userdata.consent_to_record:`). -/
def pyTruthyOptBool (b : Option Bool) : Bool :=
  match b with
  | some x => x
  | none => false

/-- The `FrustrationLevel` StrEnum. -/
inductive FrustrationLevel where
  | low
  | medium
  | high
deriving DecidableEq, Repr

def FrustrationLevel.toStr (l : FrustrationLevel) : String :=
  match l with
  | .low => "low"
  | .medium => "medium"
  | .high => "high"

def frustrationOfString (s : String) : Option FrustrationLevel :=
  if s = "low" then some .low
  else if s = "medium" then some .medium
  else if s = "high" then some .high
  else none

/-- The `ResponseFormat` pydantic model. -/
structure ResponseFormat where
  user_frustration_level : FrustrationLevel
  number_of_attempts : Int
  response : String
deriving DecidableEq, Repr

/-- `ResponseFormat(**from_json(content, allow_partial="trailing-strings"))`:
the parse succeeds when the partial parse yields a dict whose keys are
exactly the three declared fields with values of the declared shapes
(a `FrustrationLevel` string, an int, a string).  A parse error
(`ValueError`), a non-dict result (`TypeError` on `**`), missing or extra
keys, or a wrong-shaped value all raise into the caller's
`except Exception`.  (Pydantic's lenient coercions, e.g. `"3"` to `3`,
are not modelled; the claims only split on success vs. failure.) -/
def parseResponseFormat (content : String) : Option ResponseFormat :=
  match from_json_trailing_strings content with
  | some (.obj fields) =>
    match dictLookup fields "user_frustration_level",
        dictLookup fields "number_of_attempts",
        dictLookup fields "response" with
    | some (.str lvl), some (.int n), some (.str r) =>
      match frustrationOfString lvl with
      | some l => if fields.length = 3 then some ⟨l, n, r⟩ else none
      | none => none
    | _, _, _ => none
  | _ => none

/-- The fallback `ResponseFormat` built in the `except` arm of
`on_conversation_item_added`. -/
def fallbackResponseFormat : ResponseFormat :=
  ⟨.medium, -1, "Can you say that again, please?"⟩

/-- `assistant_response.model_dump(exclude={"response"})`. -/
def model_dump_reasoning (rf : ResponseFormat) : List (String × Jv) :=
  [("user_frustration_level", .str rf.user_frustration_level.toStr),
   ("number_of_attempts", .int rf.number_of_attempts)]

/-- A conversation item as seen by the router (`event.item`). -/
structure ConversationItem where
  role : String
  text_content : String

/-- The argument record of one `write_trace` invocation made by the
router (the router never passes `is_unit_test` or `trace_id`, which
default to `False` / `None`). -/
structure WriteTraceCall where
  occurred_at : String
  conversation_id : Option String
  message_type : String
  message : List (String × Jv)
  should_redact : Bool

/-- Perform one recorded `write_trace` call against the trace state. -/
def applyWriteTrace (s : TraceState) (c : WriteTraceCall) :
    WriteOutcome × TraceState :=
  write_trace s c.occurred_at c.conversation_id c.message_type c.message
    c.should_redact false none

/-- The `write_trace` calls `on_conversation_item_added` makes for one
conversation event: nothing without truthy consent; for an assistant turn
a reasoning item (from the parsed or fallback `ResponseFormat`) followed
by an agent content item with `should_redact=True`; for any other role a
single user content item with `should_redact=True`.  `now1`/`now2` are
the two `get_timestamp_iso_berlin()` readings. -/
def on_conversation_item_added_calls (now1 now2 : String)
    (item : ConversationItem) (u : MySessionInfo) : List WriteTraceCall :=
  if pyTruthyOptBool u.consent_to_record then
    if item.role = ROLE_ASSISTANT then
      let rf := (parseResponseFormat item.text_content).getD
        fallbackResponseFormat
      [⟨now1, u.conversation_id, MESSAGE_TYPE_REASONING_USER_RESPONSE,
          model_dump_reasoning rf, false⟩,
       ⟨now2, u.conversation_id, MESSAGE_TYPE_AGENT,
          [("text", .str rf.response)], true⟩]
    else
      [⟨now2, u.conversation_id, MESSAGE_TYPE_USER,
          [("text", .str item.text_content)], true⟩]
  else []

/-- `on_conversation_item_added` as a trace-state transformer: the
recorded calls applied to the queue in order. -/
def on_conversation_item_added (now1 now2 : String)
    (item : ConversationItem) (u : MySessionInfo) (st : TraceState) :
    TraceState :=
  (on_conversation_item_added_calls now1 now2 item u).foldl
    (fun s c => (applyWriteTrace s c).2) st

/-- A whole conversation: the router applied to each turn in order
(each with its pair of timestamps). -/
def runConversation (u : MySessionInfo)
    (events : List (String × String × ConversationItem))
    (st : TraceState) : TraceState :=
  match events with
  | [] => st
  | (n1, n2, it) :: rest =>
    runConversation u rest (on_conversation_item_added n1 n2 it u st)

/-! ### Helper lemmas -/

/-- Writing back the value a key already holds leaves the dict unchanged. -/
theorem dictInsert_lookup_self (d : List (String × Jv)) (k : String)
    (v : Jv) (h : dictLookup d k = some v) : dictInsert d k v = d := by
  induction d with
  | nil => simp [dictLookup] at h
  | cons p rest ih =>
    obtain ⟨k', v'⟩ := p
    by_cases hk : k' = k
    · rw [dictInsert, dictLookup] at *
      simp [hk] at h ⊢
      exact h.symm
    · rw [dictInsert, dictLookup] at *
      simp [hk] at h ⊢
      exact ih h

/-- Whatever the consumer delivers is the very item it dequeued: the only
write it ever makes to `message["text"]` stores back the value just
read. -/
theorem consumerProcessItem_delivered_eq (console : Bool)
    (item d : TraceItem)
    (h : (consumerProcessItem console item).delivered = some d) :
    d = item := by
  unfold consumerProcessItem at h
  by_cases h1 : (!item.is_unit_test && console) = true
  · rw [if_pos h1] at h
    simp at h
  · rw [if_neg h1] at h
    by_cases h2 : (item.should_redact &&
        (item.message_type = MESSAGE_TYPE_USER ||
         item.message_type = MESSAGE_TYPE_AGENT)) = true
    · rw [if_pos h2] at h
      cases hl : dictLookup item.message "text" with
      | none => rw [hl] at h; simp at h; exact h.symm
      | some t =>
        rw [hl] at h
        simp at h
        rw [← h, dictInsert_lookup_self item.message "text" t hl]
    · rw [if_neg h2] at h
      simp at h
      exact h.symm

/-- The consumer writes `message["text"]` at most once per item, and only
on the redaction path (`should_redact` set, user/agent utterance). -/
theorem consumerProcessItem_textWrites (console : Bool) (item : TraceItem) :
    (consumerProcessItem console item).textWrites ≤ 1
    ∧ ((consumerProcessItem console item).textWrites = 1 →
        item.should_redact = true ∧
        (item.message_type = MESSAGE_TYPE_USER ∨
         item.message_type = MESSAGE_TYPE_AGENT)) := by
  unfold consumerProcessItem
  by_cases h1 : (!item.is_unit_test && console) = true
  · rw [if_pos h1]; exact ⟨by simp, by simp⟩
  · rw [if_neg h1]
    by_cases h2 : (item.should_redact &&
        (item.message_type = MESSAGE_TYPE_USER ||
         item.message_type = MESSAGE_TYPE_AGENT)) = true
    · rw [if_pos h2]
      have h2' := h2
      simp only [Bool.and_eq_true, decide_eq_true_eq, Bool.or_eq_true] at h2'
      cases hl : dictLookup item.message "text" with
      | none => exact ⟨by simp, fun hw => h2'⟩
      | some t => exact ⟨by simp, fun hw => h2'⟩
    · rw [if_neg h2]; exact ⟨by simp, by simp⟩

/-- A boolean code-point-prefix test yields an explicit suffix. -/
theorem isPrefixOf_exists (l1 l2 : List Char)
    (h : l1.isPrefixOf l2 = true) : ∃ t, l1 ++ t = l2 := by
  induction l1 generalizing l2 with
  | nil => exact ⟨l2, rfl⟩
  | cons a l1 ih =>
    cases l2 with
    | nil => simp [List.isPrefixOf] at h
    | cons b l2 =>
      simp only [List.isPrefixOf, Bool.and_eq_true, beq_iff_eq] at h
      obtain ⟨rfl, h2⟩ := h
      obtain ⟨t, rfl⟩ := ih l2 h2
      exact ⟨t, rfl⟩

/-- Appending the Python slice `r[len(prev):]` to a prefix `prev` of `r`
rebuilds `r`. -/
theorem prefix_slice_append (prev r : String)
    (h : prev.data.isPrefixOf r.data = true) :
    prev ++ pySliceFrom r (pyLen prev) = r := by
  apply String.ext
  rw [String.data_append]
  show prev.data ++ r.data.drop prev.data.length = r.data
  obtain ⟨t, ht⟩ := isPrefixOf_exists prev.data r.data h
  rw [← ht, List.drop_left]

/-- If `r` extends `prev` but the slice `r[len(prev):]` is empty, the two
are equal. -/
theorem slice_empty_eq (prev r : String)
    (h : prev.data.isPrefixOf r.data = true)
    (h2 : pySliceFrom r (pyLen prev) = "") : r = prev := by
  have h3 := prefix_slice_append prev r h
  rw [h2, String.append_empty] at h3
  exact h3.symm

theorem chainOk_head {prev r : String} {rs : List String}
    (h : chainOk prev (r :: rs) = true) :
    prev.data.isPrefixOf r.data = true ∧ chainOk r rs = true := by
  rw [chainOk, Bool.and_eq_true] at h
  exact h

/-- Every delta the decoder emits is non-empty by construction. -/
theorem strictDeltas_ne_empty (rs : List String) :
    ∀ prev e, e ∈ strictDeltas prev rs → ¬ e = "" := by
  induction rs with
  | nil => intro prev e he; simp [strictDeltas] at he
  | cons r rest ih =>
    intro prev e he
    rw [strictDeltas] at he
    by_cases hd : pySliceFrom r (pyLen prev) = ""
    · rw [if_pos hd] at he
      exact ih r e he
    · rw [if_neg hd] at he
      rcases List.mem_cons.mp he with h | h
      · rw [h]; exact hd
      · exact ih r e h

/-- Over a prefix-extension chain of response values, concatenating the
emitted deltas onto the starting value reconstructs the last value. -/
theorem strConcat_strictDeltas (rs : List String) :
    ∀ prev, chainOk prev rs = true →
    prev ++ strConcat (strictDeltas prev rs) = rs.getLastD prev := by
  induction rs with
  | nil =>
    intro prev _
    rw [strictDeltas, strConcat, String.append_empty]
    rfl
  | cons r rest ih =>
    intro prev h
    obtain ⟨h1, h2⟩ := chainOk_head h
    rw [List.getLastD_cons]
    by_cases hd : pySliceFrom r (pyLen prev) = ""
    · have hr : r = prev := slice_empty_eq prev r h1 hd
      rw [strictDeltas, if_pos hd, ← hr]
      subst hr
      exact ih r h2
    · rw [strictDeltas, if_neg hd, strConcat, ← String.append_assoc,
        prefix_slice_append prev r h1]
      exact ih r h2

/-- When the accumulated text resolves to a truthy string `response`, the
decoder iteration emits the suffix past `last_response` (if non-empty)
and advances `last_response`. -/
theorem decodeStep_emit (st : DecoderState) (c : String) (r : String)
    (hr : respOf? (st.acc_text ++ c) = some r) :
    decodeStep st c
      = some (⟨r, st.acc_text ++ c⟩,
          if pySliceFrom r (pyLen st.last_response) = "" then []
          else [pySliceFrom r (pyLen st.last_response)]) := by
  cases hp : from_json_trailing_strings (st.acc_text ++ c) with
  | none => simp [respOf?, hp] at hr
  | some v =>
    cases v with
    | obj fields =>
      cases hl : dictLookup fields "response" with
      | none => simp [respOf?, hp, hl] at hr
      | some w =>
        cases w with
        | str s =>
          by_cases ht : pyTruthy (Jv.str s) = true
          · simp only [respOf?, hp, hl, if_pos ht] at hr
            injection hr with hr2
            subst hr2
            simp only [decodeStep, hp, hl, if_pos ht]
          · simp [respOf?, hp, hl, if_neg ht] at hr
        | int n => simp [respOf?, hp, hl] at hr
        | bool b => simp [respOf?, hp, hl] at hr
        | null => simp [respOf?, hp, hl] at hr
        | obj f2 => simp [respOf?, hp, hl] at hr
        | arr a2 => simp [respOf?, hp, hl] at hr
    | str s => simp [respOf?, hp] at hr
    | int n => simp [respOf?, hp] at hr
    | bool b => simp [respOf?, hp] at hr
    | null => simp [respOf?, hp] at hr
    | arr a2 => simp [respOf?, hp] at hr

/-- When no truthy string `response` is resolvable from good accumulated
text, the decoder iteration emits nothing and keeps `last_response`. -/
theorem decodeStep_skip (st : DecoderState) (c : String)
    (hg : goodText (st.acc_text ++ c) = true)
    (hr : respOf? (st.acc_text ++ c) = none) :
    decodeStep st c = some (⟨st.last_response, st.acc_text ++ c⟩, []) := by
  cases hp : from_json_trailing_strings (st.acc_text ++ c) with
  | none => simp only [decodeStep, hp]
  | some v =>
    cases v with
    | obj fields =>
      cases hl : dictLookup fields "response" with
      | none => simp only [decodeStep, hp, hl]
      | some w =>
        by_cases ht : pyTruthy w = true
        · cases w with
          | str s => simp [respOf?, hp, hl, if_pos ht] at hr
          | int n => simp [goodText, hp, hl, ht, isStrJv] at hg
          | bool b => simp [goodText, hp, hl, ht, isStrJv] at hg
          | null => simp [goodText, hp, hl, ht, isStrJv] at hg
          | obj f2 => simp [goodText, hp, hl, ht, isStrJv] at hg
          | arr a2 => simp [goodText, hp, hl, ht, isStrJv] at hg
        · simp only [decodeStep, hp, hl, if_neg ht]
    | str s => simp [goodText, hp] at hg
    | int n => simp [goodText, hp] at hg
    | bool b => simp [goodText, hp] at hg
    | null => simp [goodText, hp] at hg
    | arr a2 => simp [goodText, hp] at hg

/-- Full run of the decoder from an arbitrary generator state: on a
stream whose accumulated texts never make the generator raise and whose
resolvable response values extend `last_response` as a prefix chain, the
run emits exactly the strict suffix deltas and ends with `last_response`
equal to the last resolvable response value. -/
theorem runDecoder_emits (chunks : List String) : ∀ (st : DecoderState),
    (accTexts st.acc_text chunks).all goodText = true →
    chainOk st.last_response
        ((accTexts st.acc_text chunks).filterMap respOf?) = true →
    runDecoder st chunks
      = (strictDeltas st.last_response
           ((accTexts st.acc_text chunks).filterMap respOf?),
         some ⟨((accTexts st.acc_text chunks).filterMap respOf?).getLastD
                 st.last_response,
               (accTexts st.acc_text chunks).getLastD st.acc_text⟩) := by
  induction chunks with
  | nil =>
    intro st _ _
    simp [runDecoder, accTexts, strictDeltas]
  | cons c cs ih =>
    intro st hall hchain
    rw [accTexts] at hall hchain ⊢
    rw [List.all_cons, Bool.and_eq_true] at hall
    obtain ⟨hg, hall2⟩ := hall
    cases hr : respOf? (st.acc_text ++ c) with
    | none =>
      rw [List.filterMap_cons_none hr] at hchain ⊢
      rw [runDecoder, decodeStep_skip st c hg hr]
      have ih2 := ih ⟨st.last_response, st.acc_text ++ c⟩ hall2 hchain
      dsimp only at ih2 ⊢
      rw [List.getLastD_cons, ih2]
      rfl
    | some r =>
      rw [List.filterMap_cons_some hr] at hchain ⊢
      obtain ⟨h1, h2⟩ := chainOk_head hchain
      rw [runDecoder, decodeStep_emit st c r hr]
      have ih2 := ih ⟨r, st.acc_text ++ c⟩ hall2 h2
      dsimp only at ih2 ⊢
      rw [List.getLastD_cons, List.getLastD_cons, ih2, strictDeltas]
      by_cases hd : pySliceFrom r (pyLen st.last_response) = ""
      · rw [if_pos hd, if_pos hd]
        rfl
      · rw [if_neg hd, if_neg hd]
        rfl

/-! ### Claim theorems -/

def exampleFullItem : TraceItem :=
  ⟨"2025-01-01T10:00:00+01:00", some "conv-1", "user",
    [("text", .str "hello")], true, false, none⟩

/-- Trace state after init with the queue already holding its full
capacity of 100 items. -/
def fullQueueState : TraceState :=
  ⟨some (List.replicate TRACE_QUEUE_MAXSIZE exampleFullItem), true,
    (List.range N_WRITE_TRACE_CONSUMERS).map
      (fun i => "trace_consumer_" ++ toString i)⟩

/-- C1: the claim says a `write_trace` call made while the queue holds
its full capacity returns without blocking, drops the offered item and
logs the drop.  The code instead executes `await trace_queue.put(item)`,
which on a full `asyncio.Queue` suspends the caller until a slot frees
(`QueueFull` is raised only by `put_nowait`, so the drop-and-log `except`
branch is dead code): at a full queue the call's outcome is `blocked`,
not a non-blocking drop. -/
theorem C1_full_queue_put_blocks :
    write_trace fullQueueState "2025-01-01T10:00:05+01:00" (some "conv-1")
        "user" [("text", .str "dropped?")] true false none
      = (WriteOutcome.blocked, fullQueueState) := rfl

/-- C2: on any token stream whose accumulated texts never make the
generator raise (`goodText`) and whose successively resolvable `response`
values form a prefix-extension chain (`chainOk`),
`process_structured_output` emits exactly the strict suffix deltas of
those response values: every emitted chunk is non-empty, each is the
suffix of the current `response` value past what was previously emitted
(`strictDeltas`), and the concatenation of all emitted chunks equals the
final `response` value. -/
theorem C2_decoder_monotone_emission (chunks : List String)
    (H1 : (accTexts "" chunks).all goodText = true)
    (H2 : chainOk "" ((accTexts "" chunks).filterMap respOf?) = true) :
    process_structured_output chunks
      = (strictDeltas "" ((accTexts "" chunks).filterMap respOf?),
         some ⟨((accTexts "" chunks).filterMap respOf?).getLastD "",
               (accTexts "" chunks).getLastD ""⟩)
    ∧ (∀ e ∈ (process_structured_output chunks).1, ¬ e = "")
    ∧ strConcat (process_structured_output chunks).1
        = ((accTexts "" chunks).filterMap respOf?).getLastD "" := by
  have h : process_structured_output chunks
      = (strictDeltas "" ((accTexts "" chunks).filterMap respOf?),
         some ⟨((accTexts "" chunks).filterMap respOf?).getLastD "",
               (accTexts "" chunks).getLastD ""⟩) :=
    runDecoder_emits chunks ⟨"", ""⟩ H1 H2
  refine ⟨h, ?_, ?_⟩
  · intro e he
    rw [h] at he
    exact strictDeltas_ne_empty _ _ e he
  · rw [h]
    have h2 := strConcat_strictDeltas
      ((accTexts "" chunks).filterMap respOf?) "" H2
    rw [String.empty_append] at h2
    exact h2

def C2wchunks : List String := ["\x7b\"resp", "onse\":\"hi\"\x7d"]

/-- Witness for C2 at a concrete two-chunk stream. -/
theorem C2_decoder_monotone_emission_witness :
    (accTexts "" C2wchunks).all goodText = true
    ∧ chainOk "" ((accTexts "" C2wchunks).filterMap respOf?) = true
    ∧ (process_structured_output C2wchunks
        = (strictDeltas "" ((accTexts "" C2wchunks).filterMap respOf?),
           some ⟨((accTexts "" C2wchunks).filterMap respOf?).getLastD "",
                 (accTexts "" C2wchunks).getLastD ""⟩)
       ∧ (∀ e ∈ (process_structured_output C2wchunks).1, ¬ e = "")
       ∧ strConcat (process_structured_output C2wchunks).1
          = ((accTexts "" C2wchunks).filterMap respOf?).getLastD "") :=
  ⟨rfl, rfl, C2_decoder_monotone_emission C2wchunks rfl rfl⟩

/-- C3: on an assistant turn whose text fails to parse as the structured
reply format, a consenting session still yields exactly two `write_trace`
calls: a `reasoning:user_response` item with the fallback record
(frustration `medium`, attempts `-1`) and no redaction flag, followed by
an agent content item carrying the generic clarification prompt with
`should_redact = true`; the handler's `except` arm substitutes the
fallback instead of raising. -/
theorem C3_malformed_assistant_turn (now1 now2 : String)
    (item : ConversationItem) (u : MySessionInfo)
    (hc : pyTruthyOptBool u.consent_to_record = true)
    (hr : item.role = ROLE_ASSISTANT)
    (hp : parseResponseFormat item.text_content = none) :
    on_conversation_item_added_calls now1 now2 item u
      = [⟨now1, u.conversation_id, MESSAGE_TYPE_REASONING_USER_RESPONSE,
            [("user_frustration_level", .str "medium"),
             ("number_of_attempts", .int (-1))], false⟩,
         ⟨now2, u.conversation_id, MESSAGE_TYPE_AGENT,
            [("text", .str "Can you say that again, please?")], true⟩] := by
  unfold on_conversation_item_added_calls
  rw [hc, if_pos rfl, if_pos hr, hp]
  rfl

def malformedTurn : ConversationItem := ⟨"assistant", "oops"⟩

def consentingSession : MySessionInfo :=
  ⟨some "conv-1", none, some "tonies-user", none, none, [], some true,
    none, none, 0, none⟩

/-- Witness for C3 at a concrete malformed assistant turn. -/
theorem C3_malformed_assistant_turn_witness :
    pyTruthyOptBool consentingSession.consent_to_record = true
    ∧ malformedTurn.role = ROLE_ASSISTANT
    ∧ parseResponseFormat malformedTurn.text_content = none
    ∧ on_conversation_item_added_calls "t1" "t2" malformedTurn
        consentingSession
      = [⟨"t1", some "conv-1", MESSAGE_TYPE_REASONING_USER_RESPONSE,
            [("user_frustration_level", .str "medium"),
             ("number_of_attempts", .int (-1))], false⟩,
         ⟨"t2", some "conv-1", MESSAGE_TYPE_AGENT,
            [("text", .str "Can you say that again, please?")], true⟩] :=
  ⟨rfl, rfl, rfl,
    C3_malformed_assistant_turn "t1" "t2" malformedTurn consentingSession
      rfl rfl rfl⟩

/-- C4: with `consent_to_record = False` for the whole session, the
router makes zero `write_trace` calls on every turn, so a conversation of
any length leaves the trace queue (indeed the whole trace state)
unchanged. -/
theorem C4_no_consent_zero_traces (u : MySessionInfo)
    (hc : u.consent_to_record = some false)
    (events : List (String × String × ConversationItem))
    (st : TraceState) :
    (∀ e ∈ events,
        on_conversation_item_added_calls e.1 e.2.1 e.2.2 u = [])
    ∧ runConversation u events st = st := by
  have hcall : ∀ n1 n2 it,
      on_conversation_item_added_calls n1 n2 it u = [] := by
    intro n1 n2 it
    unfold on_conversation_item_added_calls
    rw [hc]
    rfl
  refine ⟨fun e _ => hcall e.1 e.2.1 e.2.2, ?_⟩
  induction events generalizing st with
  | nil => rfl
  | cons e rest ih =>
    obtain ⟨n1, n2, it⟩ := e
    rw [runConversation, on_conversation_item_added, hcall]
    exact ih st

def uninitState : TraceState := ⟨none, false, []⟩

def noConsentSession : MySessionInfo :=
  ⟨some "conv-1", none, some "tonies-user", none, none, [], some false,
    none, none, 0, none⟩

/-- Witness for C4 on a concrete two-turn conversation. -/
theorem C4_no_consent_zero_traces_witness :
    noConsentSession.consent_to_record = some false
    ∧ ((∀ e ∈ [("t1", "t2", (⟨"user", "hello"⟩ : ConversationItem)),
               ("t3", "t4", (⟨"assistant", "hi"⟩ : ConversationItem))],
          on_conversation_item_added_calls e.1 e.2.1 e.2.2
            noConsentSession = [])
       ∧ runConversation noConsentSession
           [("t1", "t2", ⟨"user", "hello"⟩),
            ("t3", "t4", ⟨"assistant", "hi"⟩)]
           (init_trace_system uninitState)
         = init_trace_system uninitState) :=
  ⟨rfl, C4_no_consent_zero_traces noConsentSession rfl
    [("t1", "t2", ⟨"user", "hello"⟩), ("t3", "t4", ⟨"assistant", "hi"⟩)]
    (init_trace_system uninitState)⟩

/-- C5: a `write_trace` call made while `trace_queue` is still `None`
(before `init_trace_system`) logs an error and returns normally: it
enqueues nothing, changes no state and raises nothing. -/
theorem C5_submit_before_init (s : TraceState) (h : s.trace_queue = none)
    (oa : String) (cid : Option String) (mt : String)
    (msg : List (String × Jv)) (sr iut : Bool) (tid : Option Int) :
    write_trace s oa cid mt msg sr iut tid
      = (WriteOutcome.uninitialized, s) := by
  unfold write_trace
  rw [h]

/-- Witness for C5 at the uninitialized state. -/
theorem C5_submit_before_init_witness :
    uninitState.trace_queue = none ∧
    write_trace uninitState "2025-01-01T10:00:00+01:00" (some "conv-1")
        "user" [("text", .str "hi")] true false none
      = (WriteOutcome.uninitialized, uninitState) :=
  ⟨rfl, C5_submit_before_init uninitState rfl "2025-01-01T10:00:00+01:00"
    (some "conv-1") "user" [("text", .str "hi")] true false none⟩

/-- C6: calling `shutdown_trace_system` twice in succession raises
nothing (every step of the source is guarded) and the first call already
resets the lifecycle state fully — queue and session cleared, consumer
list emptied — so the second call cancels no dangling worker task, awaits
nothing, closes nothing, and leaves the reset state unchanged. -/
theorem C6_shutdown_twice (s : TraceState) :
    (shutdown_trace_system s).result = ⟨none, false, []⟩
    ∧ (shutdown_trace_system (shutdown_trace_system s).result).cancelledTasks
        = []
    ∧ (shutdown_trace_system (shutdown_trace_system s).result).gatherAwaited
        = false
    ∧ (shutdown_trace_system (shutdown_trace_system s).result).queueJoinAwaited
        = false
    ∧ (shutdown_trace_system (shutdown_trace_system s).result).sessionClosed
        = false
    ∧ (shutdown_trace_system (shutdown_trace_system s).result).result
        = (shutdown_trace_system s).result :=
  ⟨rfl, rfl, rfl, rfl, rfl, rfl⟩

def C7chunk1 : String :=
  "\x7b\"user_frustration_level\":\"low\",\"number_of_attempts\":1,\"respon"

def C7chunk2 : String := "se\":\"Hi the"

def C7chunk3 : String := "re, how can I help?\"\x7d"

/-- C7: on the spec's concrete stream, the decoder emits nothing while
the accumulated text is truncated mid-key at `"respon` (no `response`
value resolvable), emits exactly `"Hi the"` once the accumulated text
ends in `,"response":"Hi the`, and emits exactly `"re, how can I help?"`
once the object completes; the whole run emits those two chunks. -/
theorem C7_incremental_emission :
    decodeStep ⟨"", ""⟩ C7chunk1 = some (⟨"", C7chunk1⟩, [])
    ∧ decodeStep ⟨"", C7chunk1⟩ C7chunk2
        = some (⟨"Hi the", C7chunk1 ++ C7chunk2⟩, ["Hi the"])
    ∧ decodeStep ⟨"Hi the", C7chunk1 ++ C7chunk2⟩ C7chunk3
        = some (⟨"Hi there, how can I help?",
                  C7chunk1 ++ C7chunk2 ++ C7chunk3⟩,
                ["re, how can I help?"])
    ∧ process_structured_output [C7chunk1, C7chunk2, C7chunk3]
        = (["Hi the", "re, how can I help?"],
           some ⟨"Hi there, how can I help?",
                 C7chunk1 ++ C7chunk2 ++ C7chunk3⟩) :=
  ⟨rfl, rfl, rfl, rfl⟩

/-- C8: the consumer loop processes every dequeued item before the first
cancellation signal — a per-item error is caught by `except Exception`
and the loop continues — and its only exit is the
`except asyncio.CancelledError: break` arm. -/
theorem C8_worker_exits_only_on_cancel (events : List WorkerEvent) :
    (trace_consumer_run events).1
        = (events.takeWhile (fun e => !isCancel e)).length
    ∧ ((trace_consumer_run events).2 = true ↔ WorkerEvent.cancel ∈ events) := by
  induction events with
  | nil => exact ⟨rfl, by simp [trace_consumer_run]⟩
  | cons e rest ih =>
    cases e with
    | itemOk it =>
      refine ⟨?_, ?_⟩
      · simp [trace_consumer_run, List.takeWhile, isCancel, ih.1]
      · simp [trace_consumer_run, ih.2]
    | itemError it =>
      refine ⟨?_, ?_⟩
      · simp [trace_consumer_run, List.takeWhile, isCancel, ih.1]
      · simp [trace_consumer_run, ih.2]
    | cancel =>
      exact ⟨by simp [trace_consumer_run, List.takeWhile, isCancel],
        by simp [trace_consumer_run]⟩

/-- C9: whatever the consumer delivers equals the dequeued item — in
particular with `should_redact = false` the delivered message content is
byte-identical to the enqueued content — every field other than
`message` is unchanged, and `message["text"]` is written at most once,
and only on the redaction path (`should_redact` set and a user/agent
utterance type). -/
theorem C9_trace_item_frame (console : Bool) (item d : TraceItem)
    (h : (consumerProcessItem console item).delivered = some d) :
    (item.should_redact = false → d = item)
    ∧ d.occurred_at = item.occurred_at
    ∧ d.conversation_id = item.conversation_id
    ∧ d.message_type = item.message_type
    ∧ d.message = item.message
    ∧ d.should_redact = item.should_redact
    ∧ d.is_unit_test = item.is_unit_test
    ∧ d.trace_id = item.trace_id
    ∧ (consumerProcessItem console item).textWrites ≤ 1
    ∧ ((consumerProcessItem console item).textWrites = 1 →
        item.should_redact = true ∧
        (item.message_type = MESSAGE_TYPE_USER ∨
         item.message_type = MESSAGE_TYPE_AGENT)) := by
  have hw := consumerProcessItem_textWrites console item
  have hd := consumerProcessItem_delivered_eq console item d h
  subst hd
  exact ⟨fun _ => rfl, rfl, rfl, rfl, rfl, rfl, rfl, rfl, hw.1, hw.2⟩

def plainDeliveredItem : TraceItem :=
  ⟨"2025-01-01T10:00:00+01:00", some "conv-1", "agent",
    [("text", .str "hello")], false, false, none⟩

/-- Witness for C9 at a concrete unredacted item. -/
theorem C9_trace_item_frame_witness :
    (consumerProcessItem false plainDeliveredItem).delivered
        = some plainDeliveredItem
    ∧ ((plainDeliveredItem.should_redact = false →
          plainDeliveredItem = plainDeliveredItem)
       ∧ plainDeliveredItem.occurred_at = plainDeliveredItem.occurred_at
       ∧ plainDeliveredItem.conversation_id
           = plainDeliveredItem.conversation_id
       ∧ plainDeliveredItem.message_type = plainDeliveredItem.message_type
       ∧ plainDeliveredItem.message = plainDeliveredItem.message
       ∧ plainDeliveredItem.should_redact = plainDeliveredItem.should_redact
       ∧ plainDeliveredItem.is_unit_test = plainDeliveredItem.is_unit_test
       ∧ plainDeliveredItem.trace_id = plainDeliveredItem.trace_id
       ∧ (consumerProcessItem false plainDeliveredItem).textWrites ≤ 1
       ∧ ((consumerProcessItem false plainDeliveredItem).textWrites = 1 →
           plainDeliveredItem.should_redact = true ∧
           (plainDeliveredItem.message_type = MESSAGE_TYPE_USER ∨
            plainDeliveredItem.message_type = MESSAGE_TYPE_AGENT))) :=
  ⟨rfl, C9_trace_item_frame false plainDeliveredItem plainDeliveredItem rfl⟩

/-- C10: a session whose `consent_to_record` was never set (still `None`)
behaves exactly as one with consent `False`: Python truthiness makes the
`if session.userdata.consent_to_record:` gate fail, the router's call
list is the same (empty) as with explicit `False`, and no turn ever
changes the trace state. -/
theorem C10_unset_consent_acts_as_false (u : MySessionInfo)
    (hc : u.consent_to_record = none)
    (events : List (String × String × ConversationItem))
    (st : TraceState) :
    (∀ n1 n2 it,
        on_conversation_item_added_calls n1 n2 it u
          = on_conversation_item_added_calls n1 n2 it
              { u with consent_to_record := some false })
    ∧ (∀ e ∈ events,
        on_conversation_item_added_calls e.1 e.2.1 e.2.2 u = [])
    ∧ runConversation u events st = st := by
  have hcall : ∀ n1 n2 it,
      on_conversation_item_added_calls n1 n2 it u = [] := by
    intro n1 n2 it
    unfold on_conversation_item_added_calls
    rw [hc]
    rfl
  refine ⟨?_, fun e _ => hcall e.1 e.2.1 e.2.2, ?_⟩
  · intro n1 n2 it
    rw [hcall]
    unfold on_conversation_item_added_calls
    rfl
  · induction events generalizing st with
    | nil => rfl
    | cons e rest ih =>
      obtain ⟨n1, n2, it⟩ := e
      rw [runConversation, on_conversation_item_added, hcall]
      exact ih st

def unsetConsentSession : MySessionInfo :=
  ⟨some "conv-1", none, some "tonies-user", none, none, [], none,
    none, none, 0, none⟩

/-- Witness for C10 on a concrete one-turn conversation. -/
theorem C10_unset_consent_acts_as_false_witness :
    unsetConsentSession.consent_to_record = none
    ∧ ((∀ n1 n2 it,
          on_conversation_item_added_calls n1 n2 it unsetConsentSession
            = on_conversation_item_added_calls n1 n2 it
                { unsetConsentSession with consent_to_record := some false })
       ∧ (∀ e ∈ [("t1", "t2", (⟨"user", "hello"⟩ : ConversationItem))],
          on_conversation_item_added_calls e.1 e.2.1 e.2.2
            unsetConsentSession = [])
       ∧ runConversation unsetConsentSession
           [("t1", "t2", ⟨"user", "hello"⟩)]
           (init_trace_system uninitState)
         = init_trace_system uninitState) :=
  ⟨rfl, C10_unset_consent_acts_as_false unsetConsentSession rfl
    [("t1", "t2", ⟨"user", "hello"⟩)] (init_trace_system uninitState)⟩
